import Mathlib

/-!
Shallow embedding of the MapboxService gateway (src/src/service/index.ts)
and the retry policy it installs on the shared axios transport
(axios-retry, configured in the constructor with retries 3,
exponentialDelay, retryCondition of isNetworkOrIdempotentRequestError
or status 429, and a warning log on each retry).

Conventions of the embedding:
- JS numbers used as coordinates are modelled as Int (the claims under
  study concern ordering, serialisation shape and control flow, never
  float arithmetic).
- A thrown `new Error(msg)` is modelled as `Except.error msg`.
- The ambient HTTP transport is modelled as a function from the attempt
  index (0-based) to the outcome of that attempt; batchGeocode takes a
  per-location transport indexed by the location position.
- Each method returns, besides its result, the structured log events it
  emitted, the logical requests it issued (URL plus query parameters)
  and the number of outbound HTTP attempts performed, so that claims
  about logging, credentials in requests and network-free validation
  are statable.
-/

deriving instance DecidableEq for Except

namespace Mapbox

/-- Outcome of a single outbound HTTP attempt: a 2xx response carrying a
payload, a non-2xx response carrying its status code (axios raises these
as errors with `error.response.status` set), or a network-level failure
with no response at all. -/
inductive AttemptOutcome (α : Type) where
  | success (data : α)
  | httpError (status : Nat)
  | networkError
deriving DecidableEq

/-- The status code attached to a failed attempt, if a response exists:
models `error.response?.status`. -/
def responseStatus {α : Type} : AttemptOutcome α → Option Nat
  | .httpError s => some s
  | _ => none

/-- True exactly on the network-level failure constructor (no response
was received). -/
def isNetworkLevelError {α : Type} : AttemptOutcome α → Bool
  | .networkError => true
  | _ => false

/-- True exactly on a successful attempt. -/
def isSuccessOutcome {α : Type} : AttemptOutcome α → Bool
  | .success _ => true
  | _ => false

/-- axios-retry `isNetworkOrIdempotentRequestError`, specialised to this
service where every request is a GET (an idempotent method): true on a
network-level error, and on a response whose status is in the 5xx range
(isIdempotentRequestError = idempotent method and isRetryableError,
where isRetryableError accepts no-response errors and 500..599). -/
def isNetworkOrIdempotentRequestError {α : Type} : AttemptOutcome α → Bool
  | .networkError => true
  | .httpError s => decide (500 ≤ s) && decide (s ≤ 599)
  | .success _ => false

/-- The retryCondition installed by the MapboxService constructor:
`isNetworkOrIdempotentRequestError(error) || error.response?.status === 429`. -/
def retryCondition {α : Type} (o : AttemptOutcome α) : Bool :=
  isNetworkOrIdempotentRequestError o || responseStatus o == some 429

/-- axios-retry `exponentialDelay` with the default delay factor 100:
`2 ^ retryNumber * 100` milliseconds plus a random jitter of up to 20%
of that value; `rand` stands for the `Math.random()` draw in [0, 1). -/
def exponentialDelay (retryNumber : Nat) (rand : ℚ) : ℚ :=
  2 ^ retryNumber * 100 + 2 ^ retryNumber * 100 * (1 / 5) * rand

/-- Result of running one logical request through the retry layer: the
retry numbers passed to the onRetry hook (1 for the first retry), the
total number of attempts performed, and the final outcome. -/
structure RetryRun (α : Type) where
  retryEvents : List Nat
  attempts : Nat
  outcome : AttemptOutcome α
deriving DecidableEq

/-- The axios-retry request loop as configured in the constructor:
attempt the request; on success stop; on failure, if retries remain and
retryCondition holds, fire onRetry with the retry number and attempt
again, else propagate the failure. `retriesLeft` starts at 3 and
`attemptIdx` is the 0-based index of the current attempt. -/
def runWithRetry {α : Type} (transport : Nat → AttemptOutcome α) :
    Nat → Nat → RetryRun α
  | retriesLeft, attemptIdx =>
    match transport attemptIdx with
    | .success d => ⟨[], attemptIdx + 1, .success d⟩
    | o =>
      match retriesLeft with
      | 0 => ⟨[], attemptIdx + 1, o⟩
      | n + 1 =>
        if retryCondition o then
          let r := runWithRetry transport n (attemptIdx + 1)
          ⟨(attemptIdx + 1) :: r.retryEvents, r.attempts, r.outcome⟩
        else
          ⟨[], attemptIdx + 1, o⟩

/-- One logical outbound request through the transport configured with
`retries: 3` (at most 4 attempts in total). -/
def performRequest {α : Type} (transport : Nat → AttemptOutcome α) : RetryRun α :=
  runWithRetry transport 3 0

/-- winston log levels used by the service. -/
inductive LogLevel where
  | error
  | warn
  | info
deriving DecidableEq

/-- A structured-metadata value attached to a log event: a number, a
string, a full array of coordinate pairs, or undefined. -/
inductive MetaVal where
  | num (n : Int)
  | str (s : String)
  | coordArray (cs : List (Int × Int))
  | undefined
deriving DecidableEq

/-- A structured log event: level, message, and metadata fields. -/
structure LogEvent where
  level : LogLevel
  message : String
  fields : List (String × MetaVal)
deriving DecidableEq

/-- The metadata value recorded for `status: error.response?.status`. -/
def statusMeta {α : Type} (o : AttemptOutcome α) : MetaVal :=
  match responseStatus o with
  | some s => .num s
  | none => .undefined

/-- The axios error message observed in the catch blocks: axios words a
response failure as `Request failed with status code N` and a
network-level failure as `Network Error`. -/
def errMessage {α : Type} : AttemptOutcome α → String
  | .httpError s => "Request failed with status code " ++ toString s
  | .networkError => "Network Error"
  | .success _ => ""

/-- The warning event fired by the onRetry hook with the retry number. -/
def retryWarnEvent (n : Nat) : LogEvent :=
  ⟨.warn, "Retry attempt " ++ toString n ++ " for Mapbox API call", []⟩

/-- A logical outbound request: URL and query parameters. -/
structure Request where
  url : String
  params : List (String × String)
deriving DecidableEq

/-- What a method call produced: the log events emitted in order, the
logical requests issued, the total number of HTTP attempts performed,
and either a value or the message of the thrown Error. -/
structure MethodResult (α : Type) where
  logs : List LogEvent
  requests : List Request
  attempts : Nat
  result : Except String α
deriving DecidableEq

/-- JavaScript `Array.prototype.join(sep)`: elements concatenated with
the separator between consecutive elements, empty string for the empty
array. -/
def jsJoin (sep : String) : List String → String
  | [] => ""
  | [x] => x
  | x :: xs => x ++ sep ++ jsJoin sep xs

/-- Split a character list at every occurrence of the separator; the
inverse direction of joining, used to state that the serialised
coordinate path preserves the input pairs in order. -/
def splitChar (sep : Char) : List Char → List (List Char)
  | [] => [[]]
  | c :: cs =>
    if c = sep then [] :: splitChar sep cs
    else
      match splitChar sep cs with
      | g :: gs => (c :: g) :: gs
      | [] => [[c]]

/-- Character-level join with a single-character separator, mirroring
`jsJoin` below. -/
def joinWithChar (sep : Char) : List (List Char) → List Char
  | [] => []
  | [p] => p
  | p :: ps => p ++ sep :: joinWithChar sep ps

/-- The `lon,lat` string a single `[number, number]` waypoint is turned
into by `coord.join(',')`. -/
def coordPairString (c : Int × Int) : String :=
  jsJoin "," [toString c.1, toString c.2]

/-- `waypoints.map((coord) => coord.join(',')).join(';')`: the path
segment both getOptimizedRoute and getDistanceMatrix build. -/
def serializeCoords (ws : List (Int × Int)) : String :=
  jsJoin ";" (ws.map coordPairString)

/-- The fixed provider host. -/
def MAPBOX_BASE_URL : String := "https://api.mapbox.com"

/-- The gateway object: holds the credential stored by the constructor. -/
structure MapboxService where
  accessToken : String
deriving DecidableEq

/-- The MapboxService constructor: logs and throws when the access token
is falsy (the empty string for a string credential; an absent credential
is represented the same way), otherwise stores it. The retry policy it
installs on the shared transport is `performRequest` above. -/
def MapboxService.create (accessToken : String) :
    List LogEvent × Except String MapboxService :=
  if accessToken = "" then
    ([⟨.error, "Mapbox access token not provided", []⟩],
     .error "Mapbox access token is required")
  else
    ([], .ok ⟨accessToken⟩)

/-- getOptimizedRoute: validate that at least 2 waypoints were given,
build the optimized-trips URL from the serialised coordinates, perform
one GET through the retry-aware transport, and on failure log the error
with the full waypoints array and the upstream status, then throw the
fixed message. The provider payload type is abstract because the method
returns `response.data` unmodified. -/
def MapboxService.getOptimizedRoute {α : Type} (svc : MapboxService)
    (transport : Nat → AttemptOutcome α)
    (waypoints : List (Int × Int)) : MethodResult α :=
  if waypoints.length < 2 then
    ⟨[], [], 0, .error "Invalid waypoints. Minimum 2 coordinates required."⟩
  else
    let url := MAPBOX_BASE_URL ++ "/optimized-trips/v1/mapbox/driving/" ++
      serializeCoords waypoints
    let req : Request :=
      ⟨url, [("access_token", svc.accessToken), ("geometries", "geojson")]⟩
    let run := performRequest transport
    let retryLogs := run.retryEvents.map retryWarnEvent
    match run.outcome with
    | .success data =>
      ⟨retryLogs ++
        [⟨.info, "Route optimized for " ++ toString waypoints.length ++
          " waypoints", []⟩],
       [req], run.attempts, .ok data⟩
    | o =>
      ⟨retryLogs ++
        [⟨.error, "Route optimization error: " ++ errMessage o,
          [("waypoints", .coordArray waypoints), ("status", statusMeta o)]⟩],
       [req], run.attempts, .error "Failed to optimize route"⟩

/-- Properties object of one elevation feature. -/
structure ElevationProperties where
  ele : Int
deriving DecidableEq

/-- One feature of the tilequery elevation response. -/
structure ElevationFeature where
  properties : ElevationProperties
deriving DecidableEq

/-- Body of a 2xx elevation response. `features` is an Option so that a
malformed body in which the `features` field is absent at runtime (the
declared TypeScript type notwithstanding) is representable: reading
`.length` of that absent field throws inside the try block. -/
structure ElevationResponse where
  features : Option (List ElevationFeature)
deriving DecidableEq

/-- The runtime error message raised when `.length` is read off the
absent `features` field; the engine-specific wording is modelled
without its quote characters, which no claim depends on. -/
def undefinedLengthMessage : String :=
  "Cannot read properties of undefined (reading length)"

/-- getElevation: build the tilequery URL, perform one GET through the
retry-aware transport; on a 2xx body take the first feature elevation
when one exists, warn and default to 0 when `features` is empty, and
fall into the catch block (log, then throw the fixed message) when the
transport fails or the body has no `features` field at all. -/
def MapboxService.getElevation (svc : MapboxService)
    (transport : Nat → AttemptOutcome ElevationResponse)
    (longitude latitude : Int) : MethodResult Int :=
  let url := MAPBOX_BASE_URL ++ "/v4/mapbox.mapbox-terrain-v2/tilequery/" ++
    toString longitude ++ "," ++ toString latitude ++ ".json"
  let req : Request :=
    ⟨url, [("access_token", svc.accessToken), ("layers", "contour"),
      ("limit", "1")]⟩
  let coordText := toString longitude ++ ", " ++ toString latitude
  let run := performRequest transport
  let retryLogs := run.retryEvents.map retryWarnEvent
  match run.outcome with
  | .success data =>
    match data.features with
    | some (f :: _) =>
      ⟨retryLogs, [req], run.attempts, .ok f.properties.ele⟩
    | some [] =>
      ⟨retryLogs ++
        [⟨.warn, "No elevation data for coordinates: " ++ coordText, []⟩],
       [req], run.attempts, .ok 0⟩
    | none =>
      ⟨retryLogs ++
        [⟨.error, "Elevation fetch error: " ++ undefinedLengthMessage,
          [("coordinates", .str coordText), ("status", .undefined)]⟩],
       [req], run.attempts, .error "Failed to fetch elevation"⟩
  | o =>
    ⟨retryLogs ++
      [⟨.error, "Elevation fetch error: " ++ errMessage o,
        [("coordinates", .str coordText), ("status", statusMeta o)]⟩],
     [req], run.attempts, .error "Failed to fetch elevation"⟩

/-- Body of a 2xx geocoding response for one location; the feature type
is abstract because batchGeocode passes features through unmodified. -/
structure GeocodeResponse (γ : Type) where
  features : List γ
deriving DecidableEq

/-- The first failed final outcome among the per-location retry runs,
if any: models which rejection Promise.all propagates (position order
stands in for rejection time, which no claim depends on). -/
def firstFailure {α : Type} (runs : List (RetryRun α)) : Option (AttemptOutcome α) :=
  (runs.find? fun r => !isSuccessOutcome r.outcome).map (·.outcome)

/-- batchGeocode: validate that the location array is non-empty, fan out
one GET per location through the retry-aware transport, join on all of
them; if every run succeeds return the first feature (or undefined) per
location in input order, otherwise log the aggregate error with the
location count and the upstream status of the propagated rejection and
throw the fixed message. -/
def MapboxService.batchGeocode {γ : Type} (svc : MapboxService)
    (transport : Nat → Nat → AttemptOutcome (GeocodeResponse γ))
    (locations : List String) : MethodResult (List (Option γ)) :=
  if locations.length = 0 then
    ⟨[], [], 0, .error "Invalid locations. Non-empty array required."⟩
  else
    let url := MAPBOX_BASE_URL ++ "/geocoding/v5/mapbox.places-permanent"
    let reqs := locations.map fun loc =>
      (⟨url, [("access_token", svc.accessToken), ("q", loc), ("limit", "1")]⟩ : Request)
    let runs := (List.range locations.length).map fun i =>
      performRequest (transport i)
    let retryLogs := (runs.map fun r => r.retryEvents.map retryWarnEvent).flatten
    let attempts := (runs.map RetryRun.attempts).sum
    match firstFailure runs with
    | none =>
      let results := runs.map fun r =>
        match r.outcome with
        | .success d => d.features.head?
        | _ => none
      ⟨retryLogs ++
        [⟨.info, "Geocoded " ++ toString results.length ++ " locations", []⟩],
       reqs, attempts, .ok results⟩
    | some o =>
      ⟨retryLogs ++
        [⟨.error, "Batch geocoding error: " ++ errMessage o,
          [("locationCount", .num locations.length), ("status", statusMeta o)]⟩],
       reqs, attempts, .error "Failed to geocode locations"⟩

/-- getDistanceMatrix: validate that at least 2 points were given, build
the distances URL from the serialised coordinates, perform one GET
through the retry-aware transport, and on failure log the error with the
point count and upstream status, then throw the fixed message. -/
def MapboxService.getDistanceMatrix {α : Type} (svc : MapboxService)
    (transport : Nat → AttemptOutcome α)
    (points : List (Int × Int)) : MethodResult α :=
  if points.length < 2 then
    ⟨[], [], 0, .error "Invalid points. Minimum 2 coordinates required."⟩
  else
    let url := MAPBOX_BASE_URL ++ "/distances/v1/mapbox/driving/" ++
      serializeCoords points
    let req : Request :=
      ⟨url, [("access_token", svc.accessToken),
        ("annotations", "duration,distance")]⟩
    let run := performRequest transport
    let retryLogs := run.retryEvents.map retryWarnEvent
    match run.outcome with
    | .success data =>
      ⟨retryLogs ++
        [⟨.info, "Distance matrix calculated for " ++ toString points.length ++
          " points", []⟩],
       [req], run.attempts, .ok data⟩
    | o =>
      ⟨retryLogs ++
        [⟨.error, "Distance matrix error: " ++ errMessage o,
          [("pointCount", .num points.length), ("status", statusMeta o)]⟩],
       [req], run.attempts, .error "Failed to fetch distance matrix"⟩

/-! Helper lemmas about the retry loop. -/

theorem runWithRetry_structure {α : Type} (t : Nat → AttemptOutcome α) :
    ∀ (n i : Nat),
      (runWithRetry t n i).retryEvents =
        List.range' (i + 1) (runWithRetry t n i).retryEvents.length ∧
      (runWithRetry t n i).attempts =
        i + 1 + (runWithRetry t n i).retryEvents.length ∧
      (runWithRetry t n i).retryEvents.length ≤ n := by
  intro n
  induction n with
  | zero =>
    intro i
    unfold runWithRetry
    cases t i <;> simp
  | succ n ih =>
    intro i
    unfold runWithRetry
    cases ht : t i with
    | success d => simp
    | httpError s =>
      by_cases hrc : retryCondition (AttemptOutcome.httpError (α := α) s) = true
      · obtain ⟨h1, h2, h3⟩ := ih (i + 1)
        simp only [hrc, if_true]
        refine ⟨?_, ?_, ?_⟩
        · simp only [List.length_cons]
          rw [List.range'_succ]
          exact congrArg (List.cons (i + 1)) h1
        · simpa [h2] using by omega
        · simpa using h3
      · simp [hrc]
    | networkError =>
      by_cases hrc : retryCondition (AttemptOutcome.networkError (α := α)) = true
      · obtain ⟨h1, h2, h3⟩ := ih (i + 1)
        simp only [hrc, if_true]
        refine ⟨?_, ?_, ?_⟩
        · simp only [List.length_cons]
          rw [List.range'_succ]
          exact congrArg (List.cons (i + 1)) h1
        · simpa [h2] using by omega
        · simpa using h3
      · simp [hrc]

theorem performRequest_structure {α : Type} (t : Nat → AttemptOutcome α) :
    (performRequest t).retryEvents =
      List.range' 1 (performRequest t).retryEvents.length ∧
    (performRequest t).retryEvents.length ≤ 3 ∧
    (performRequest t).attempts = (performRequest t).retryEvents.length + 1 := by
  have h := runWithRetry_structure t 3 0
  unfold performRequest
  obtain ⟨h1, h2, h3⟩ := h
  exact ⟨h1, h3, by omega⟩

theorem performRequest_429_twice_then_success {α : Type} (d : α) :
    performRequest
        (fun i => if i < 2 then AttemptOutcome.httpError 429
          else AttemptOutcome.success d) =
      ⟨[1, 2], 3, AttemptOutcome.success d⟩ := by
  unfold performRequest
  norm_num [runWithRetry, retryCondition, responseStatus,
    isNetworkOrIdempotentRequestError]

theorem performRequest_400_no_retry {α : Type} (t : Nat → AttemptOutcome α)
    (h : t 0 = AttemptOutcome.httpError 400) :
    performRequest t = ⟨[], 1, AttemptOutcome.httpError 400⟩ := by
  unfold performRequest
  norm_num [runWithRetry, h, retryCondition, responseStatus,
    isNetworkOrIdempotentRequestError]

/-- C1 (counterexample to the claim as stated): an HTTP 503 response is
neither a network-level error nor status 429, yet the retry layer
retries it — a transport that always answers 503 produces retry events
1, 2, 3, and an elevation call over that transport logs three retry
warnings. -/
theorem retry_iff_network_or_429_counterexample :
    isNetworkLevelError (AttemptOutcome.httpError (α := Unit) 503) = false ∧
    responseStatus (AttemptOutcome.httpError (α := Unit) 503) ≠ some 429 ∧
    (performRequest (fun _ => AttemptOutcome.httpError (α := Unit) 503)).retryEvents =
      [1, 2, 3] ∧
    ((⟨"token"⟩ : MapboxService).getElevation
        (fun _ => AttemptOutcome.httpError 503) 1 2).logs.take 3 =
      [retryWarnEvent 1, retryWarnEvent 2, retryWarnEvent 3] := by
  refine ⟨rfl, by decide, by decide, by decide⟩

/-- C1 (amended): an outbound attempt is retried exactly when the
failure is a network-level error, a 5xx response (every request of this
service is an idempotent GET, so isNetworkOrIdempotentRequestError
accepts the 500..599 range), or a 429 response; at most 3 retries (4
total attempts) are made and the warning events carry the retry numbers
1, 2, …; the backoff delay for retry n is exponential — between
2^n·100 and 2^n·120 milliseconds for any jitter draw; a transport that
fails with 429 on the first two attempts and succeeds on the third
yields success with exactly the two retry events 1 and 2 — in
particular getElevation then succeeds and logs exactly two retry
warnings; and a 400 response on the first attempt is never retried. -/
theorem retry_policy_characterization :
    (∀ (α : Type) (o : AttemptOutcome α),
        retryCondition o = true ↔
          (isNetworkLevelError o = true ∨
            ∃ s, responseStatus o = some s ∧ ((500 ≤ s ∧ s ≤ 599) ∨ s = 429))) ∧
    (∀ (α : Type) (t : Nat → AttemptOutcome α),
        (performRequest t).retryEvents =
          List.range' 1 (performRequest t).retryEvents.length ∧
        (performRequest t).retryEvents.length ≤ 3 ∧
        (performRequest t).attempts = (performRequest t).retryEvents.length + 1) ∧
    (∀ (n : Nat) (r : ℚ), 0 ≤ r → r < 1 →
        2 ^ n * 100 ≤ exponentialDelay n r ∧
        exponentialDelay n r < 2 ^ n * 120) ∧
    (∀ (α : Type) (d : α),
        performRequest
            (fun i => if i < 2 then AttemptOutcome.httpError 429
              else AttemptOutcome.success d) =
          ⟨[1, 2], 3, AttemptOutcome.success d⟩) ∧
    (∀ (α : Type) (t : Nat → AttemptOutcome α),
        t 0 = AttemptOutcome.httpError 400 →
        performRequest t = ⟨[], 1, AttemptOutcome.httpError 400⟩) ∧
    (∀ (svc : MapboxService) (lon lat : Int) (f : ElevationFeature),
        (svc.getElevation
            (fun i => if i < 2 then AttemptOutcome.httpError 429
              else AttemptOutcome.success ⟨some [f]⟩) lon lat).logs =
          [retryWarnEvent 1, retryWarnEvent 2] ∧
        (svc.getElevation
            (fun i => if i < 2 then AttemptOutcome.httpError 429
              else AttemptOutcome.success ⟨some [f]⟩) lon lat).result =
          .ok f.properties.ele) := by
  refine ⟨?_, ?_, ?_, ?_, ?_, ?_⟩
  · intro α o
    cases o with
    | success d =>
      simp [retryCondition, isNetworkOrIdempotentRequestError,
        responseStatus, isNetworkLevelError]
    | httpError s =>
      simp only [retryCondition, isNetworkOrIdempotentRequestError,
        responseStatus, isNetworkLevelError, Bool.or_eq_true,
        Bool.and_eq_true, decide_eq_true_eq, beq_iff_eq,
        Option.some_inj]
      constructor
      · rintro (⟨h1, h2⟩ | h)
        · exact Or.inr ⟨s, rfl, Or.inl ⟨h1, h2⟩⟩
        · exact Or.inr ⟨s, rfl, Or.inr h⟩
      · rintro (h | ⟨s2, hs2, (⟨h1, h2⟩ | h)⟩)
        · exact absurd h (by simp)
        · exact Or.inl ⟨hs2 ▸ h1, hs2 ▸ h2⟩
        · exact Or.inr (hs2 ▸ h)
    | networkError =>
      simp [retryCondition, isNetworkOrIdempotentRequestError,
        responseStatus, isNetworkLevelError]
  · intro α t
    exact performRequest_structure t
  · intro n r h0 h1
    have hp : (0 : ℚ) < 2 ^ n * 20 := by positivity
    constructor
    · have hj : (0 : ℚ) ≤ 2 ^ n * 100 * (1 / 5) * r :=
        mul_nonneg (by positivity) h0
      unfold exponentialDelay
      linarith
    · have hlt := mul_lt_mul_of_pos_left h1 hp
      unfold exponentialDelay
      nlinarith
  · intro α d
    exact performRequest_429_twice_then_success d
  · intro α t h
    exact performRequest_400_no_retry t h
  · intro svc lon lat f
    unfold MapboxService.getElevation
    rw [performRequest_429_twice_then_success]
    exact ⟨rfl, rfl⟩

/-- C1 witness: the amended retry-policy theorem applied at retry
number 1 with jitter draw 1/2 and at the transport that answers 400 on
its first attempt. -/
theorem retry_policy_characterization_witness :
    (2 ^ 1 * 100 ≤ exponentialDelay 1 (1 / 2) ∧
      exponentialDelay 1 (1 / 2) < 2 ^ 1 * 120) ∧
    performRequest (fun _ => AttemptOutcome.httpError (α := Unit) 400) =
      ⟨[], 1, AttemptOutcome.httpError 400⟩ := by
  exact ⟨retry_policy_characterization.2.2.1 1 (1 / 2) (by norm_num) (by norm_num),
    retry_policy_characterization.2.2.2.2.1 Unit
      (fun _ => AttemptOutcome.httpError 400) rfl⟩

/-- C6: with fewer than 2 waypoints or points, getOptimizedRoute and
getDistanceMatrix throw their validation messages immediately: no log
event, no request, zero HTTP attempts, whatever the transport would
have answered. -/
theorem validation_min_two_coordinates {α : Type} (svc : MapboxService)
    (t : Nat → AttemptOutcome α) (ws : List (Int × Int))
    (h : ws.length < 2) :
    svc.getOptimizedRoute t ws =
      ⟨[], [], 0, .error "Invalid waypoints. Minimum 2 coordinates required."⟩ ∧
    svc.getDistanceMatrix t ws =
      ⟨[], [], 0, .error "Invalid points. Minimum 2 coordinates required."⟩ := by
  constructor
  · unfold MapboxService.getOptimizedRoute
    rw [if_pos h]
  · unfold MapboxService.getDistanceMatrix
    rw [if_pos h]

/-- C6 witness: the validation theorem applied to a one-waypoint list. -/
theorem validation_min_two_coordinates_witness :
    (⟨"token"⟩ : MapboxService).getOptimizedRoute
        (fun _ => AttemptOutcome.success ()) [(1, 2)] =
      ⟨[], [], 0, .error "Invalid waypoints. Minimum 2 coordinates required."⟩ ∧
    (⟨"token"⟩ : MapboxService).getDistanceMatrix
        (fun _ => AttemptOutcome.success ()) [(1, 2)] =
      ⟨[], [], 0, .error "Invalid points. Minimum 2 coordinates required."⟩ :=
  validation_min_two_coordinates ⟨"token"⟩ (fun _ => AttemptOutcome.success ())
    [(1, 2)] (by decide)

/-- C7: with an empty location array, batchGeocode throws its validation
message immediately: no log event, no request, zero HTTP attempts,
whatever the transport would have answered. -/
theorem validation_nonempty_locations {γ : Type} (svc : MapboxService)
    (t : Nat → Nat → AttemptOutcome (GeocodeResponse γ)) :
    svc.batchGeocode t [] =
      ⟨[], [], 0, .error "Invalid locations. Non-empty array required."⟩ := by
  unfold MapboxService.batchGeocode
  rw [if_pos List.length_nil]

/-- C9: construction fails (with the fixed configuration message,
after an error log) exactly when the credential is empty — an absent
credential is represented the same way; a non-empty credential is
stored, and every request any of the four methods issues carries it as
the access_token query parameter. -/
theorem credential_required_and_propagated :
    (∀ tok : String,
        (MapboxService.create tok).2 =
          .error "Mapbox access token is required" ↔ tok = "") ∧
    (∀ tok : String, tok ≠ "" →
        (MapboxService.create tok).2 = .ok ⟨tok⟩ ∧
        (MapboxService.create tok).1 = []) ∧
    ((MapboxService.create "").1 =
      [⟨.error, "Mapbox access token not provided", []⟩]) ∧
    (∀ (α : Type) (svc : MapboxService) (t : Nat → AttemptOutcome α)
        (ws : List (Int × Int)),
        ∀ req ∈ (svc.getOptimizedRoute t ws).requests,
          ("access_token", svc.accessToken) ∈ req.params) ∧
    (∀ (svc : MapboxService) (t : Nat → AttemptOutcome ElevationResponse)
        (lon lat : Int),
        ∀ req ∈ (svc.getElevation t lon lat).requests,
          ("access_token", svc.accessToken) ∈ req.params) ∧
    (∀ (γ : Type) (svc : MapboxService)
        (t : Nat → Nat → AttemptOutcome (GeocodeResponse γ))
        (locations : List String),
        ∀ req ∈ (svc.batchGeocode t locations).requests,
          ("access_token", svc.accessToken) ∈ req.params) ∧
    (∀ (α : Type) (svc : MapboxService) (t : Nat → AttemptOutcome α)
        (ps : List (Int × Int)),
        ∀ req ∈ (svc.getDistanceMatrix t ps).requests,
          ("access_token", svc.accessToken) ∈ req.params) := by
  refine ⟨?_, ?_, rfl, ?_, ?_, ?_, ?_⟩
  · intro tok
    unfold MapboxService.create
    by_cases h : tok = "" <;> simp [h]
  · intro tok h
    unfold MapboxService.create
    rw [if_neg h]
    exact ⟨rfl, rfl⟩
  · intro α svc t ws req hreq
    unfold MapboxService.getOptimizedRoute at hreq
    by_cases h : ws.length < 2
    · rw [if_pos h] at hreq
      simp at hreq
    · rw [if_neg h] at hreq
      rcases ho : (performRequest t).outcome with d | s | _ <;>
        simp only [ho] at hreq <;> simp at hreq <;> simp [hreq]
  · intro svc t lon lat req hreq
    unfold MapboxService.getElevation at hreq
    rcases ho : (performRequest t).outcome with d | s | _
    · rcases hf : d.features with _ | ⟨_ | ⟨f, fs⟩⟩ <;>
        simp only [ho, hf] at hreq <;> simp at hreq <;> simp [hreq]
    · simp only [ho] at hreq
      simp at hreq
      simp [hreq]
    · simp only [ho] at hreq
      simp at hreq
      simp [hreq]
  · intro γ svc t locations req hreq
    unfold MapboxService.batchGeocode at hreq
    by_cases h : locations.length = 0
    · rw [if_pos h] at hreq
      simp at hreq
    · rw [if_neg h] at hreq
      rcases hff : firstFailure ((List.range locations.length).map
          fun i => performRequest (t i)) with _ | o <;>
        simp only [hff] at hreq <;> simp at hreq <;>
        obtain ⟨loc, _, hr⟩ := hreq <;> simp [← hr]
  · intro α svc t ps req hreq
    unfold MapboxService.getDistanceMatrix at hreq
    by_cases h : ps.length < 2
    · rw [if_pos h] at hreq
      simp at hreq
    · rw [if_neg h] at hreq
      rcases ho : (performRequest t).outcome with d | s | _ <;>
        simp only [ho] at hreq <;> simp at hreq <;> simp [hreq]

/-- C9 witness: the credential theorem applied at the token string
abc: construction succeeds, stores the token, and an optimized-route
request carries it as access_token. -/
theorem credential_required_and_propagated_witness :
    (MapboxService.create "abc").2 = .ok ⟨"abc"⟩ ∧
    (((⟨"abc"⟩ : MapboxService).getOptimizedRoute
        (fun _ => AttemptOutcome.success ()) [(1, 2), (3, 4)]).requests.all
      fun req => decide (("access_token", "abc") ∈ req.params)) = true := by
  constructor
  · exact (credential_required_and_propagated.2.1 "abc" (by decide)).1
  · rw [List.all_eq_true]
    intro req hreq
    rw [decide_eq_true_eq]
    exact credential_required_and_propagated.2.2.2.1 Unit ⟨"abc"⟩
      (fun _ => AttemptOutcome.success ()) [(1, 2), (3, 4)] req hreq

/-- C4: when the transport delivers a 2xx elevation body, zero features
yield the 0 default together with the no-data warning (not a failure),
and at least one feature yields the first feature's elevation
property. -/
theorem getElevation_feature_extraction (svc : MapboxService)
    (t : Nat → AttemptOutcome ElevationResponse) (lon lat : Int)
    (resp : ElevationResponse)
    (hsucc : (performRequest t).outcome = AttemptOutcome.success resp) :
    (resp.features = some [] →
      (svc.getElevation t lon lat).result = .ok 0 ∧
      (⟨.warn, "No elevation data for coordinates: " ++
          (toString lon ++ ", " ++ toString lat), []⟩ : LogEvent) ∈
        (svc.getElevation t lon lat).logs) ∧
    (∀ (f : ElevationFeature) (fs : List ElevationFeature),
      resp.features = some (f :: fs) →
      (svc.getElevation t lon lat).result = .ok f.properties.ele ∧
      ∀ e ∈ (svc.getElevation t lon lat).logs, e.level = .warn) := by
  constructor
  · intro hempty
    unfold MapboxService.getElevation
    simp only [hsucc, hempty]
    constructor
    · trivial
    · simp
  · intro f fs hcons
    unfold MapboxService.getElevation
    simp only [hsucc, hcons]
    refine ⟨trivial, ?_⟩
    intro e he
    simp only [List.mem_map] at he
    obtain ⟨n, _, hn⟩ := he
    rw [← hn]
    rfl

/-- C4 witness: the extraction theorem applied at a transport that
immediately returns a body with zero features, and at one that returns
a single feature of elevation 42. -/
theorem getElevation_feature_extraction_witness :
    ((⟨"token"⟩ : MapboxService).getElevation
        (fun _ => AttemptOutcome.success ⟨some []⟩) 7 8).result = .ok 0 ∧
    ((⟨"token"⟩ : MapboxService).getElevation
        (fun _ => AttemptOutcome.success ⟨some [⟨⟨42⟩⟩]⟩) 7 8).result =
      .ok 42 := by
  constructor
  · exact ((getElevation_feature_extraction ⟨"token"⟩
      (fun _ => AttemptOutcome.success ⟨some []⟩) 7 8 ⟨some []⟩ rfl).1 rfl).1
  · exact ((getElevation_feature_extraction ⟨"token"⟩
      (fun _ => AttemptOutcome.success ⟨some [⟨⟨42⟩⟩]⟩) 7 8
      ⟨some [⟨⟨42⟩⟩]⟩ rfl).2 ⟨⟨42⟩⟩ [] rfl).1

/-- C10: a 2xx elevation body with no features field at all does not
fall back to the 0 default — the in-extraction error is caught by the
catch block, an error event is logged, and the call fails with the
fixed elevation message. -/
theorem getElevation_missing_features_field (svc : MapboxService)
    (t : Nat → AttemptOutcome ElevationResponse) (lon lat : Int)
    (resp : ElevationResponse)
    (hsucc : (performRequest t).outcome = AttemptOutcome.success resp)
    (hnone : resp.features = none) :
    (svc.getElevation t lon lat).result = .error "Failed to fetch elevation" ∧
    (svc.getElevation t lon lat).result ≠ .ok 0 ∧
    (⟨.error, "Elevation fetch error: " ++ undefinedLengthMessage,
        [("coordinates", .str (toString lon ++ ", " ++ toString lat)),
         ("status", .undefined)]⟩ : LogEvent) ∈
      (svc.getElevation t lon lat).logs := by
  unfold MapboxService.getElevation
  simp only [hsucc, hnone]
  refine ⟨trivial, by simp, by simp⟩

/-- C10 witness: the missing-features theorem applied at a transport
that immediately returns a featureless 2xx body. -/
theorem getElevation_missing_features_field_witness :
    ((⟨"token"⟩ : MapboxService).getElevation
        (fun _ => AttemptOutcome.success ⟨none⟩) 7 8).result =
      .error "Failed to fetch elevation" :=
  (getElevation_missing_features_field ⟨"token"⟩
    (fun _ => AttemptOutcome.success ⟨none⟩) 7 8 ⟨none⟩ rfl rfl).1

/-- C2: if any one of the per-location requests still fails once its
own retries are exhausted, the whole batchGeocode call throws the fixed
geocoding message — no partial result array is returned. -/
theorem batchGeocode_all_or_nothing {γ : Type} (svc : MapboxService)
    (transport : Nat → Nat → AttemptOutcome (GeocodeResponse γ))
    (locations : List String) (hne : locations ≠ [])
    (i : Nat) (hi : i < locations.length)
    (hfail : isSuccessOutcome (performRequest (transport i)).outcome = false) :
    (svc.batchGeocode transport locations).result =
      .error "Failed to geocode locations" ∧
    ∀ res : List (Option γ),
      (svc.batchGeocode transport locations).result ≠ .ok res := by
  have hlen : ¬ locations.length = 0 := by
    simpa [List.length_eq_zero] using hne
  have hmem : performRequest (transport i) ∈
      (List.range locations.length).map fun j => performRequest (transport j) :=
    List.mem_map.mpr ⟨i, List.mem_range.mpr hi, rfl⟩
  have hsome : (((List.range locations.length).map
      fun j => performRequest (transport j)).find?
        fun r => !isSuccessOutcome r.outcome).isSome := by
    rw [List.find?_isSome]
    exact ⟨performRequest (transport i), hmem, by simp [hfail]⟩
  obtain ⟨r, hr⟩ := Option.isSome_iff_exists.mp hsome
  have hff : firstFailure ((List.range locations.length).map
      fun j => performRequest (transport j)) = some r.outcome := by
    unfold firstFailure
    rw [hr]
    rfl
  constructor
  · unfold MapboxService.batchGeocode
    rw [if_neg hlen]
    simp only [hff]
  · intro res
    unfold MapboxService.batchGeocode
    rw [if_neg hlen]
    simp only [hff]
    simp

/-- C2 witness: the all-or-nothing theorem applied at two locations
whose second provider call answers 400 on every attempt. -/
theorem batchGeocode_all_or_nothing_witness :
    ((⟨"token"⟩ : MapboxService).batchGeocode
        (fun i _ => if i = 0 then AttemptOutcome.success (⟨[3]⟩ : GeocodeResponse Int)
          else AttemptOutcome.httpError 400)
        ["Paris", "Berlin"]).result = .error "Failed to geocode locations" :=
  (batchGeocode_all_or_nothing ⟨"token"⟩
    (fun i _ => if i = 0 then AttemptOutcome.success (⟨[3]⟩ : GeocodeResponse Int)
      else AttemptOutcome.httpError 400)
    ["Paris", "Berlin"] (by decide) 1 (by decide) (by decide)).1

/-- C5: when each per-location request eventually succeeds, batchGeocode
returns one slot per input location in input order — the first feature
of that location's response, or an empty slot when the response has no
features; no slot is removed. -/
theorem batchGeocode_positional {γ : Type} (svc : MapboxService)
    (transport : Nat → Nat → AttemptOutcome (GeocodeResponse γ))
    (locations : List String) (hne : locations ≠ [])
    (resp : Nat → GeocodeResponse γ)
    (hsucc : ∀ i < locations.length,
      (performRequest (transport i)).outcome = AttemptOutcome.success (resp i)) :
    (svc.batchGeocode transport locations).result =
      .ok ((List.range locations.length).map fun i => (resp i).features.head?) ∧
    ((List.range locations.length).map
      fun i => (resp i).features.head?).length = locations.length ∧
    ∀ i < locations.length,
      ((List.range locations.length).map
        fun j => (resp j).features.head?)[i]? = some ((resp i).features.head?) := by
  have hlen : ¬ locations.length = 0 := by
    simpa [List.length_eq_zero] using hne
  have hnofail : ∀ r ∈ (List.range locations.length).map
      fun j => performRequest (transport j),
      ¬ (!isSuccessOutcome r.outcome) = true := by
    intro r hr
    obtain ⟨j, hj, hjr⟩ := List.mem_map.mp hr
    rw [← hjr, hsucc j (List.mem_range.mp hj)]
    simp [isSuccessOutcome]
  have hff : firstFailure ((List.range locations.length).map
      fun j => performRequest (transport j)) = none := by
    unfold firstFailure
    rw [List.find?_eq_none.mpr hnofail]
    rfl
  refine ⟨?_, by simp, ?_⟩
  · unfold MapboxService.batchGeocode
    rw [if_neg hlen]
    simp only [hff]
    simp only [List.map_map]
    congr 1
    apply List.map_congr_left
    intro j hj
    simp only [Function.comp_apply, hsucc j (List.mem_range.mp hj)]
  · intro i hi
    simp [List.getElem?_map, List.getElem?_range hi]

/-- C5 witness: the positional theorem applied at two locations where
the first response carries one feature and the second none — the
result is a two-slot array, feature then empty slot, in input order. -/
theorem batchGeocode_positional_witness :
    ((⟨"token"⟩ : MapboxService).batchGeocode
        (fun i _ => if i = 0 then AttemptOutcome.success (⟨[3]⟩ : GeocodeResponse Int)
          else AttemptOutcome.success (⟨[]⟩ : GeocodeResponse Int))
        ["Paris", "Nonexistent Place X"]).result = .ok [some 3, none] := by
  have h := (batchGeocode_positional ⟨"token"⟩
    (fun i _ => if i = 0 then AttemptOutcome.success (⟨[3]⟩ : GeocodeResponse Int)
      else AttemptOutcome.success (⟨[]⟩ : GeocodeResponse Int))
    ["Paris", "Nonexistent Place X"] (by decide)
    (fun i => if i = 0 then ⟨[3]⟩ else ⟨[]⟩)
    (by decide)).1
  rw [h]
  rfl

theorem getLast?_append_singleton {β : Type} (l : List β) (a : β) :
    (l ++ [a]).getLast? = some a := by
  simp

/-- C3 (counterexample to the claim as stated): a route optimization
failure logs the full waypoints array as metadata, not a count — the
fields of the failure event are exactly the waypoints payload and the
status, with no count field. -/
theorem failure_log_counts_counterexample :
    ((⟨"token"⟩ : MapboxService).getOptimizedRoute
        (fun _ => AttemptOutcome.httpError (α := Unit) 400) [(1, 2), (3, 4)]).logs =
      [⟨.error, "Route optimization error: Request failed with status code 400",
        [("waypoints", .coordArray [(1, 2), (3, 4)]),
         ("status", .num 400)]⟩] := by
  decide

/-- C3 (amended): on a transport-layer failure every method logs one
error-level event whose message names the operation and whose metadata
carries the upstream status code when a response exists (undefined
otherwise) together with an input summary — the location count for
batch geocoding, the point count for the distance matrix, the single
coordinate pair for elevation, but the FULL waypoints array for route
optimization — and then throws an operation-specific error whose
message is a fixed string containing neither the upstream status nor
the original error message, hence identical across all distinct
upstream failures. -/
theorem failure_logging_and_narrowing :
    (∀ (α : Type) (svc : MapboxService) (t : Nat → AttemptOutcome α)
        (ws : List (Int × Int)), 2 ≤ ws.length →
        isSuccessOutcome (performRequest t).outcome = false →
        (svc.getOptimizedRoute t ws).logs.getLast? =
          some ⟨.error,
            "Route optimization error: " ++ errMessage (performRequest t).outcome,
            [("waypoints", .coordArray ws),
             ("status", statusMeta (performRequest t).outcome)]⟩ ∧
        (svc.getOptimizedRoute t ws).result = .error "Failed to optimize route") ∧
    (∀ (svc : MapboxService) (t : Nat → AttemptOutcome ElevationResponse)
        (lon lat : Int),
        isSuccessOutcome (performRequest t).outcome = false →
        (svc.getElevation t lon lat).logs.getLast? =
          some ⟨.error,
            "Elevation fetch error: " ++ errMessage (performRequest t).outcome,
            [("coordinates", .str (toString lon ++ ", " ++ toString lat)),
             ("status", statusMeta (performRequest t).outcome)]⟩ ∧
        (svc.getElevation t lon lat).result = .error "Failed to fetch elevation") ∧
    (∀ (γ : Type) (svc : MapboxService)
        (transport : Nat → Nat → AttemptOutcome (GeocodeResponse γ))
        (locations : List String) (o : AttemptOutcome (GeocodeResponse γ)),
        locations ≠ [] →
        firstFailure ((List.range locations.length).map
          fun i => performRequest (transport i)) = some o →
        (svc.batchGeocode transport locations).logs.getLast? =
          some ⟨.error, "Batch geocoding error: " ++ errMessage o,
            [("locationCount", .num locations.length),
             ("status", statusMeta o)]⟩ ∧
        (svc.batchGeocode transport locations).result =
          .error "Failed to geocode locations") ∧
    (∀ (α : Type) (svc : MapboxService) (t : Nat → AttemptOutcome α)
        (ps : List (Int × Int)), 2 ≤ ps.length →
        isSuccessOutcome (performRequest t).outcome = false →
        (svc.getDistanceMatrix t ps).logs.getLast? =
          some ⟨.error,
            "Distance matrix error: " ++ errMessage (performRequest t).outcome,
            [("pointCount", .num ps.length),
             ("status", statusMeta (performRequest t).outcome)]⟩ ∧
        (svc.getDistanceMatrix t ps).result =
          .error "Failed to fetch distance matrix") := by
  refine ⟨?_, ?_, ?_, ?_⟩
  · intro α svc t ws hlen hfail
    unfold MapboxService.getOptimizedRoute
    rw [if_neg (by omega)]
    rcases ho : (performRequest t).outcome with d | s | _
    · rw [ho] at hfail
      simp [isSuccessOutcome] at hfail
    · simp only [ho]
      exact ⟨getLast?_append_singleton _ _, trivial⟩
    · simp only [ho]
      exact ⟨getLast?_append_singleton _ _, trivial⟩
  · intro svc t lon lat hfail
    unfold MapboxService.getElevation
    rcases ho : (performRequest t).outcome with d | s | _
    · rw [ho] at hfail
      simp [isSuccessOutcome] at hfail
    · simp only [ho]
      exact ⟨getLast?_append_singleton _ _, trivial⟩
    · simp only [ho]
      exact ⟨getLast?_append_singleton _ _, trivial⟩
  · intro γ svc transport locations o hne hff
    have hlen : ¬ locations.length = 0 := by
      simpa [List.length_eq_zero] using hne
    unfold MapboxService.batchGeocode
    rw [if_neg hlen]
    simp only [hff]
    exact ⟨getLast?_append_singleton _ _, trivial⟩
  · intro α svc t ps hlen hfail
    unfold MapboxService.getDistanceMatrix
    rw [if_neg (by omega)]
    rcases ho : (performRequest t).outcome with d | s | _
    · rw [ho] at hfail
      simp [isSuccessOutcome] at hfail
    · simp only [ho]
      exact ⟨getLast?_append_singleton _ _, trivial⟩
    · simp only [ho]
      exact ⟨getLast?_append_singleton _ _, trivial⟩

/-- C3 witness: the amended logging theorem applied to a distance
matrix call over a transport that answers 404 on every attempt. -/
theorem failure_logging_and_narrowing_witness :
    ((⟨"token"⟩ : MapboxService).getDistanceMatrix
        (fun _ => AttemptOutcome.httpError (α := Unit) 404)
        [(1, 2), (3, 4)]).logs.getLast? =
      some ⟨.error, "Distance matrix error: " ++
          errMessage (AttemptOutcome.httpError (α := Unit) 404),
        [("pointCount", .num 2), ("status", .num 404)]⟩ ∧
    ((⟨"token"⟩ : MapboxService).getDistanceMatrix
        (fun _ => AttemptOutcome.httpError (α := Unit) 404)
        [(1, 2), (3, 4)]).result = .error "Failed to fetch distance matrix" :=
  failure_logging_and_narrowing.2.2.2 Unit ⟨"token"⟩
    (fun _ => AttemptOutcome.httpError 404) [(1, 2), (3, 4)]
    (by decide) (by decide)

/-! Helper lemmas relating the join used by the coordinate
serialisation to the character-level split. -/

theorem splitChar_of_not_mem (sep : Char) (p : List Char) (h : sep ∉ p) :
    splitChar sep p = [p] := by
  induction p with
  | nil => rfl
  | cons c cs ih =>
    have hc : ¬ c = sep := fun hcs => h (hcs ▸ List.mem_cons_self c cs)
    have hcs : sep ∉ cs := fun hm => h (List.mem_cons_of_mem c hm)
    rw [splitChar, if_neg hc, ih hcs]

theorem splitChar_append (sep : Char) (p t : List Char) (h : sep ∉ p) :
    splitChar sep (p ++ sep :: t) = p :: splitChar sep t := by
  induction p with
  | nil =>
    rw [List.nil_append, splitChar, if_pos rfl]
  | cons c cs ih =>
    have hc : ¬ c = sep := fun hcs => h (hcs ▸ List.mem_cons_self c cs)
    have hcs : sep ∉ cs := fun hm => h (List.mem_cons_of_mem c hm)
    rw [List.cons_append, splitChar, if_neg hc, ih hcs]

theorem splitChar_joinWithChar (sep : Char) (parts : List (List Char))
    (hne : parts ≠ []) (h : ∀ p ∈ parts, sep ∉ p) :
    splitChar sep (joinWithChar sep parts) = parts := by
  induction parts with
  | nil => exact absurd rfl hne
  | cons p ps ih =>
    cases ps with
    | nil =>
      rw [joinWithChar]
      exact splitChar_of_not_mem sep p (h p (List.mem_cons_self p []))
    | cons q qs =>
      rw [joinWithChar, splitChar_append sep p _ (h p (List.mem_cons_self p _))]
      · rw [ih (by simp) fun r hr => h r (List.mem_cons_of_mem p hr)]
      · simp

theorem data_jsJoin_semicolon (ss : List String) :
    (jsJoin ";" ss).data = joinWithChar (Char.ofNat 59) (ss.map String.data) := by
  induction ss with
  | nil => rfl
  | cons x xs ih =>
    cases xs with
    | nil => rfl
    | cons y ys =>
      rw [jsJoin, List.map_cons, joinWithChar]
      · rw [String.data_append, String.data_append, ih, List.map_cons]
        have hd : (";" : String).data = [Char.ofNat 59] := rfl
        rw [hd, List.append_assoc]
        rfl
      · simp
      · simp

/-- C8: both getOptimizedRoute and getDistanceMatrix put the serialised
coordinates into the request path, where each pair is rendered
lon-comma-lat (longitude first) and pairs are joined by semicolons;
splitting the serialised segment at the semicolons recovers exactly the
input pairs in input order — nothing reordered, inserted or removed.
The side condition that no rendered pair contains a semicolon holds for
the integer rendering and is discharged at the witness. -/
theorem coordinate_serialization_order {α : Type} (svc : MapboxService)
    (t : Nat → AttemptOutcome α) (ws : List (Int × Int))
    (h2 : 2 ≤ ws.length)
    (hsep : ∀ c ∈ ws, Char.ofNat 59 ∉ (coordPairString c).data) :
    (svc.getOptimizedRoute t ws).requests.map Request.url =
      [MAPBOX_BASE_URL ++ "/optimized-trips/v1/mapbox/driving/" ++
        serializeCoords ws] ∧
    (svc.getDistanceMatrix t ws).requests.map Request.url =
      [MAPBOX_BASE_URL ++ "/distances/v1/mapbox/driving/" ++
        serializeCoords ws] ∧
    splitChar (Char.ofNat 59) (serializeCoords ws).data =
      ws.map (fun c => (coordPairString c).data) ∧
    ∀ lon lat : Int,
      coordPairString (lon, lat) = toString lon ++ "," ++ toString lat := by
  have hne : ws ≠ [] := by
    intro hnil
    rw [hnil] at h2
    simp at h2
  have hlt : ¬ ws.length < 2 := by omega
  refine ⟨?_, ?_, ?_, ?_⟩
  · unfold MapboxService.getOptimizedRoute
    rw [if_neg hlt]
    rcases ho : (performRequest t).outcome with d | s | _ <;>
      simp only [ho] <;> rfl
  · unfold MapboxService.getDistanceMatrix
    rw [if_neg hlt]
    rcases ho : (performRequest t).outcome with d | s | _ <;>
      simp only [ho] <;> rfl
  · unfold serializeCoords
    rw [data_jsJoin_semicolon]
    rw [splitChar_joinWithChar]
    · rw [List.map_map]
      rfl
    · simp [hne]
    · intro p hp
      rw [List.map_map] at hp
      obtain ⟨c, hc, hcp⟩ := List.mem_map.mp hp
      rw [← hcp]
      exact hsep c hc
  · intro lon lat
    rfl

/-- C8 witness: the serialisation theorem applied to the two-waypoint
list (1,2), (3,4), whose path segment splits back into the two rendered
pairs in order. -/
theorem coordinate_serialization_order_witness :
    splitChar (Char.ofNat 59) (serializeCoords [(1, 2), (3, 4)]).data =
      [(coordPairString (1, 2)).data, (coordPairString (3, 4)).data] := by
  have h := (coordinate_serialization_order (⟨"token"⟩ : MapboxService)
    (fun _ => AttemptOutcome.success ()) [(1, 2), (3, 4)]
    (by decide) (by decide)).2.2.1
  exact h

end Mapbox
